import Mathlib

/-!
Shallow embedding of the generation pipeline and the sticker selection
engine of the `stickit-avatar-creator` repository
(`entrypoints/api-core/src/routes/imageGeneration.ts` and the chat routes
file that contains `setupChatRoutes`), together with theorems settling the
specification claims about them.

Modelling conventions, used throughout:
- JavaScript strings are Lean `String`s; `undefined`/missing optional
  fields are `Option`; JS truthiness of a string value (`if (s)`) is
  `s != ""` on the present value, with `none` falsy.
- The R2 content store is an association list keyed by object name.
- `new URL(x).searchParams.get(k)` and the avatar filename extraction are
  URL-library calls external to the repository; an image reference is
  therefore modelled as carrying the extraction result directly
  (`none` covers both a URL parse failure, which the source catches and
  skips, and a missing query parameter).
- `JSON.parse` is the JS builtin, external to the repository; the chat
  handler takes it as an explicit function argument
  `jsonParse : String → Option ParsedResp` (`none` = parse throws).
- `Math.floor(Math.random() * len)` produces an arbitrary index below
  `len`; each call site is modelled by a `Nat` parameter reduced mod the
  length.
- `Date.now()` / `Math.random()` available to a handler are modelled by a
  `JsEnv` value threaded to the functions that could observe them.
-/

namespace StickIt

/-- JsEnv models the ambient wall clock and random number generator that a
route handler can observe (`Date.now()`, `Math.random()`); it is threaded
into the prompt composers so that independence from it is a statement, not
an assumption. -/
structure JsEnv where
  now : Nat
  rand : Nat
deriving DecidableEq, Repr

/-- JS `a || b` on an optional string: the default is taken when the value
is absent or empty (falsy). -/
def jsOrString (v : Option String) (dflt : String) : String :=
  match v with
  | some s => if s == "" then dflt else s
  | none => dflt

/-- JS truthiness of an optional string value. -/
def jsTruthy (v : Option String) : Bool :=
  match v with
  | some s => s != ""
  | none => false

/-- R2Object models a stored object as returned by `bucket.get`:
its bytes (abstracted as a string) and `httpMetadata?.contentType`. -/
structure R2Object where
  data : String
  contentType : Option String
deriving DecidableEq, Repr

/-- R2Store models the R2 bucket as an association list from object key to
stored object. -/
abbrev R2Store := List (String × R2Object)

/-- storeGet models `bucket.get(key)` (`null` when the key is absent). -/
def storeGet (st : R2Store) (key : String) : Option R2Object :=
  (st.find? (fun kv => kv.1 == key)).map (fun kv => kv.2)

/-- ColorPaletteIn mirrors the `colorPalette` object with its four fields
in JS insertion order (`primary`, `secondary`, `accent`, `neutral`). -/
structure ColorPaletteIn where
  primary : Option String
  secondary : Option String
  accent : Option String
  neutral : Option String
deriving DecidableEq, Repr

/-- RefImageIn models one entry of `avatarCreation.referenceImages`:
`filePath` is the result of `new URL(refImage.url).searchParams.get('filePath')`;
`none` covers a URL parse failure (caught and skipped by the source) as
well as a missing parameter. -/
structure RefImageIn where
  filePath : Option String
deriving DecidableEq, Repr

/-- GeneratedAvatarIn models `avatarCreation.generatedAvatar`: `url` is the
raw URL string (truthiness-checked by the source), `filename` the result of
`avatarUrl.searchParams.get('filename') || avatarUrl.pathname.split('/').pop()`
(`none` covers a URL parse failure, caught and skipped). -/
structure GeneratedAvatarIn where
  url : String
  filename : Option String
deriving DecidableEq, Repr

/-- AvatarCreationIn mirrors the `avatarCreation` request object as read by
the generation routes. -/
structure AvatarCreationIn where
  description : Option String
  personality : Option String
  colorPalette : Option ColorPaletteIn
  generatedAvatar : Option GeneratedAvatarIn
  referenceImages : List RefImageIn
deriving DecidableEq, Repr

/-- BrandIdentityIn mirrors the `brandIdentity` request object as read by
the generation routes. -/
structure BrandIdentityIn where
  avatarType : Option String
  avatarDescription : Option String
  personalityTraits : Option (List String)
deriving DecidableEq, Repr

/-- StickerDataIn mirrors the `stickerData` request object of
`POST /generate-sticker`. -/
structure StickerDataIn where
  name : String
  scenario : String
  description : Option String
  notes : Option String
deriving DecidableEq, Repr

/-- paletteColors models the palette line construction:
`Object.entries(colorPalette).filter(([_, v]) => v).map(([k, v]) => k + ': ' + v).join(', ')`. -/
def paletteColors (cp : ColorPaletteIn) : String :=
  let entries : List (String × Option String) :=
    [("primary", cp.primary), ("secondary", cp.secondary),
     ("accent", cp.accent), ("neutral", cp.neutral)]
  let parts := entries.filterMap (fun kv =>
    match kv.2 with
    | some v => if v == "" then none else some (kv.1 ++ ": " ++ v)
    | none => none)
  String.intercalate ", " parts

/-- optLine renders one conditional `prompt +=` line: emitted only when the
field is present and truthy, otherwise nothing (no gap, no placeholder). -/
def optLine (label : String) (v : Option String) : String :=
  match v with
  | some s => if s == "" then "" else label ++ s ++ "\n"
  | none => ""

/-- paletteLine renders the conditional `Color Palette:` line shared by both
composers. -/
def paletteLine (cp? : Option ColorPaletteIn) : String :=
  match cp? with
  | some cp =>
    let colors := paletteColors cp
    if colors == "" then "" else "Color Palette: " ++ colors ++ "\n"
  | none => ""

/-- avatarTechBlock is the fixed technical/style constraints block of the
avatar prompt (template literal of the `/generate-avatar` handler). -/
def avatarTechBlock : String :=
  "\n=== TECHNICAL REQUIREMENTS ===\n- Kawaii-style design with thick black outlines (5-6 pixels wide)\n- Bold, clean lines with simple cel-shading\n- Strong silhouette with prominent black borders around all edges\n- Expressive and friendly appearance\n- White background\n- High contrast and vibrant colors\n- Optimized for sticker format (clear, recognizable at small sizes)\n- Professional yet approachable design\n- Design should be versatile enough to work in multiple expressions and scenarios\n- Character should have distinctive features that remain consistent across different stickers\n\n=== WHATSAPP STICKER OPTIMIZATION ===\n- NO TEXT: Do not include any text, words, or speech bubbles\n- NO DECORATIVE ELEMENTS: Avoid splashes, sparkles, stars, or decorative elements outside the main character\n- CLEAN DESIGN: Keep the design simple and focused on the main character only\n- WHATSAPP COMPATIBLE: Design should work perfectly when converted to WhatsApp sticker format\n- FOCUS ON CHARACTER: The character should be the only visual element, with minimal or no background elements\n\n=== FINAL REMINDER ===\nWHATSAPP STICKER FORMAT: This avatar will be used to create WhatsApp stickers. Keep the design clean and simple - focus only on the character. Avoid any text, speech bubbles, decorative elements, or background details that might get removed during WhatsApp conversion. The character should be the only visual element."

/-- stickerTechBlock is the fixed technical/style constraints block of the
sticker prompt (template literal of the `/generate-sticker` handler). -/
def stickerTechBlock : String :=
  "\n=== TECHNICAL REQUIREMENTS ===\n- Kawaii-style design with thick black outlines (5-6 pixels wide)\n- Bold, clean lines with simple cel-shading\n- Strong silhouette with prominent black borders around all edges\n- Expressive and appropriate for the scenario described\n- White background\n- High contrast and vibrant colors\n- Optimized for sticker format (clear, recognizable at small sizes)\n- Professional yet approachable design\n- ABSOLUTE PRIORITY: The character must be visually identical to the generated avatar image provided\n- The generated avatar is the definitive reference - all other descriptions are secondary\n- Only the expression, pose, and context should change based on the scenario\n- Maintain the exact same visual identity, features, and style as the generated avatar\n- If a generated avatar is provided, ignore conflicting descriptions and use the avatar image as the source of truth\n\n=== WHATSAPP STICKER OPTIMIZATION ===\n- NO TEXT: Do not include any text, words, or speech bubbles unless explicitly requested in the scenario\n- NO DECORATIVE ELEMENTS: Avoid splashes, sparkles, stars, or decorative elements outside the main character\n- CLEAN DESIGN: Keep the design simple and focused on the main character only\n- WHATSAPP COMPATIBLE: Design should work perfectly when converted to WhatsApp sticker format\n- FOCUS ON CHARACTER: The character should be the only visual element, with minimal or no background elements\n- EXCEPTION: Only add text if the scenario specifically mentions text, speech, or written content\n\n=== FINAL REMINDER ===\nWHATSAPP STICKER FORMAT: This sticker will be used in WhatsApp. Keep the design clean and simple - focus only on the character. Avoid any text, speech bubbles, decorative elements, or background details that might get removed during WhatsApp conversion. The character should be the only visual element."

/-- composeAvatarPrompt transcribes the prompt construction of
`POST /generate-avatar` (the sequence of `prompt +=` statements before any
image is fetched). The `JsEnv` argument models the handler-ambient clock
and RNG, which this section of the source never reads. -/
def composeAvatarPrompt (_env : JsEnv) (bi : BrandIdentityIn)
    (ac : AvatarCreationIn) : String :=
  "Create a kawaii-style sticker avatar that will be used as the base character for multiple stickers. This avatar should be designed to be consistent across different expressions and scenarios.\n\n"
  ++ "=== AVATAR CHARACTER DESIGN (PRIMARY) ===\n"
  ++ optLine "Avatar Description: " ac.description
  ++ optLine "Avatar Personality: " ac.personality
  ++ paletteLine ac.colorPalette
  ++ "\n=== BRAND CONTEXT (SUPPORTING) ===\n"
  ++ optLine "Avatar Type: " bi.avatarType
  ++ optLine "Purpose: " bi.avatarDescription
  ++ avatarTechBlock

/-- composeStickerPrompt transcribes the prompt construction of
`POST /generate-sticker` (the sequence of `prompt +=` statements before any
image is fetched). The `JsEnv` argument models the handler-ambient clock
and RNG, which this section of the source never reads. -/
def composeStickerPrompt (_env : JsEnv) (sd : StickerDataIn)
    (bi : BrandIdentityIn) (ac : AvatarCreationIn) : String :=
  "Create a kawaii-style sticker featuring the same character/avatar in different scenarios. The avatar should be consistent across all stickers.\n\n"
  ++ "=== GENERATED AVATAR (ABSOLUTE PRIMARY REFERENCE) ===\n"
  ++ "CRITICAL: The generated avatar image provided below is the EXACT character that must appear in this sticker. This is the most important reference - everything else is secondary.\n\n"
  ++ "=== STICKER SPECIFIC DETAILS ===\n"
  ++ ("Sticker Name: " ++ sd.name ++ "\n")
  ++ ("Usage Scenario: " ++ sd.scenario ++ "\n")
  ++ optLine "Description: " sd.description
  ++ optLine "Additional Notes: " sd.notes
  ++ "\n=== AVATAR CHARACTER DESIGN (SUPPORTING CONTEXT) ===\n"
  ++ optLine "Avatar Description: " ac.description
  ++ optLine "Avatar Personality: " ac.personality
  ++ paletteLine ac.colorPalette
  ++ "\n=== BRAND CONTEXT (ADDITIONAL SUPPORT) ===\n"
  ++ optLine "Avatar Type: " bi.avatarType
  ++ optLine "Avatar Purpose: " bi.avatarDescription
  ++ (match bi.personalityTraits with
      | some ts =>
        if ts.length > 0 then
          "Personality Traits: " ++ String.intercalate ", " ts ++ "\n"
        else ""
      | none => "")
  ++ stickerTechBlock

end StickIt

namespace StickIt

/-- ContentPart is one entry of the `contents` array sent to the model:
either the text prompt or an `inlineData` image part. -/
inductive ContentPart where
  | text (s : String)
  | image (mimeType : String) (data : String)
deriving DecidableEq, Repr

/-- imageCount counts the image parts of a content sequence. -/
def imageCount (l : List ContentPart) : Nat :=
  (l.filter (fun p => match p with | .image _ _ => true | .text _ => false)).length

/-- resolveAvatarPart models the generated-avatar fetch of
`POST /generate-sticker`: the extracted filename must be truthy, the object
present in the store; the part carries
`httpMetadata?.contentType || 'image/png'`. `none` means the avatar is
skipped (logged, non-fatal). -/
def resolveAvatarPart (st : R2Store) (ga : GeneratedAvatarIn) : Option ContentPart :=
  match ga.filename with
  | some f =>
    if f == "" then none
    else
      match storeGet st f with
      | some obj => some (.image (jsOrString obj.contentType "image/png") obj.data)
      | none => none
  | none => none

/-- resolveRefPart models one iteration of the reference-image loop shared
by both generation routes: `filePath` must be truthy, the object present in
the store; the part carries `httpMetadata?.contentType || 'image/jpeg'`.
`none` means the image is silently skipped (logged, non-fatal). -/
def resolveRefPart (st : R2Store) (r : RefImageIn) : Option ContentPart :=
  match r.filePath with
  | some f =>
    if f == "" then none
    else
      match storeGet st f with
      | some obj => some (.image (jsOrString obj.contentType "image/jpeg") obj.data)
      | none => none
  | none => none

/-- hasGeneratedAvatar models the source condition
`avatarCreation.generatedAvatar && avatarCreation.generatedAvatar.url`. -/
def hasGeneratedAvatar (ac : AvatarCreationIn) : Bool :=
  match ac.generatedAvatar with
  | some ga => ga.url != ""
  | none => false

/-- stickerCriticalClause is the precedence clause the sticker handler
appends to its local `prompt` variable when a generated avatar exists and
`contents.length > 1`. -/
def stickerCriticalClause : String :=
  "\n\nCRITICAL INSTRUCTIONS: The FIRST image provided is the generated avatar - this is the EXACT character that must appear in the sticker. Use this as the primary reference for the character\x27s appearance, style, and features. Any additional reference images are for style inspiration only. The character in the sticker must match the generated avatar exactly, only changing expression, pose, and context based on the scenario."

/-- stickerRefClause is the alternative clause appended when images were
attached but no generated avatar exists. -/
def stickerRefClause : String :=
  "\n\nIMPORTANT: Use the provided reference images as visual inspiration for the sticker design. Analyze the style, colors, and visual elements in these images and incorporate them into the sticker while maintaining the kawaii sticker format and character consistency."

/-- BuiltRequest is the outcome of the content-assembly phase of
`POST /generate-sticker`: the `contents` array handed to
`gemini.models.generateContent`, and the final value of the handler-local
`prompt` variable (which, in the source, is only observed by `console.log`
after the `contents` array has already captured the original string). -/
structure BuiltRequest where
  contents : List ContentPart
  finalPrompt : String
deriving DecidableEq, Repr

/-- buildStickerContents transcribes the content-assembly phase of
`POST /generate-sticker`: `contents` starts as `[prompt]`; the generated
avatar (when present, truthy and resolvable) is pushed first; then every
reference image that resolves is pushed in list order; finally, inside the
reference-image branch only, the handler appends a precedence clause to its
local `prompt` variable when `contents.length > 1`. -/
def buildStickerContents (st : R2Store) (ac : AvatarCreationIn)
    (prompt0 : String) : BuiltRequest :=
  let contents : List ContentPart := [.text prompt0]
  let contents :=
    match ac.generatedAvatar with
    | some ga =>
      if ga.url != "" then
        match resolveAvatarPart st ga with
        | some p => contents ++ [p]
        | none => contents
      else contents
    | none => contents
  if ac.referenceImages.length > 0 then
    let contents := contents ++ ac.referenceImages.filterMap (resolveRefPart st)
    let finalPrompt :=
      if contents.length > 1 then
        prompt0 ++ (if hasGeneratedAvatar ac then stickerCriticalClause else stickerRefClause)
      else prompt0
    ⟨contents, finalPrompt⟩
  else ⟨contents, prompt0⟩

/-- RespPart models one content part of a Gemini response;
`inlineDataData` is the value of `part.inlineData?.data`. -/
structure RespPart where
  inlineDataData : Option String
deriving DecidableEq, Repr

/-- partImageData models the source guard `if (part.inlineData?.data)`:
the part carries inline binary image data iff the chained access yields a
truthy (non-empty) string. -/
def partImageData (p : RespPart) : Option String :=
  match p.inlineDataData with
  | some d => if d == "" then none else some d
  | none => none

/-- extractFirstImage transcribes the extraction loop shared by
`/generate-avatar` and `/generate-sticker`: scan the response parts in
order and stop (`break`) at the first part carrying inline image data. -/
def extractFirstImage : List RespPart → Option String
  | [] => none
  | p :: rest =>
    match partImageData p with
    | some d => some d
    | none => extractFirstImage rest

/-- GenResult models the handler outcome after the model call: the JSON
success body facts the claims need, or an error response with its HTTP
status. -/
inductive GenResult where
  | ok (filename : String) (size : Nat)
  | err (status : Nat) (msg : String)
deriving DecidableEq, Repr

/-- resultIsErr is true on the error outcome. -/
def resultIsErr : GenResult → Bool
  | .ok _ _ => false
  | .err _ _ => true

/-- PersistOutcome records the store writes (`bucket.put` calls, as
key/data pairs in order) performed by the post-call phase together with
the handler outcome. -/
structure PersistOutcome where
  writes : List (String × String)
  result : GenResult
deriving DecidableEq, Repr

/-- persistExtracted transcribes the post-call phase shared by both
generation routes: extract the first inline image from the response parts;
if none, answer 500 with the route error message and perform no write;
otherwise perform exactly one `put` under the minted filename and answer
success. -/
def persistExtracted (filename : String) (parts : List RespPart)
    (errMsg : String) : PersistOutcome :=
  match extractFirstImage parts with
  | none => ⟨[], .err 500 errMsg⟩
  | some d => ⟨[(filename, d)], .ok filename d.length⟩

/-- StickerIn mirrors `StickerDefinitionInput` as consumed by the chat
route (`latestConfig.input.stickerGeneration?.stickers`). -/
structure StickerIn where
  id : Option String
  name : String
  scenario : String
  description : Option String
  notes : Option String
  url : Option String
  imageUrl : Option String
deriving DecidableEq, Repr

/-- CtxSticker is one entry of the `stickerContext` array the chat handler
builds from the stored stickers. -/
structure CtxSticker where
  id : String
  name : String
  scenario : String
  description : String
  notes : String
  imageUrl : String
deriving DecidableEq, Repr

/-- mkStickerContext transcribes the `stickerContext` construction:
`id: sticker.id || 'sticker-' + index`, with `||` defaults on the optional
text fields and `sticker.url || sticker.imageUrl || ''` for the image. -/
def mkStickerContext (stickers : List StickerIn) : List CtxSticker :=
  stickers.mapIdx (fun i s =>
    { id := jsOrString s.id ("sticker-" ++ toString i)
      name := s.name
      scenario := s.scenario
      description := jsOrString s.description ""
      notes := jsOrString s.notes ""
      imageUrl := jsOrString s.url (jsOrString s.imageUrl "") })

/-- lastIdxOfRBrace returns the index of the last closing brace of the
character list, through the reversed list. -/
def lastIdxOfRBrace (cs : List Char) : Option Nat :=
  match cs.reverse.findIdx? (fun c => c == '}') with
  | some k => some (cs.length - 1 - k)
  | none => none

/-- jsonSpanMatch models `text.match(/\x7b[\s\S]*\x7d/)`: the regex anchors
at the leftmost possible start (the first opening brace that is followed by
a closing one) and, `[\s\S]*` being greedy, ends at the last closing brace
of the whole text; `null` when no such pair exists. -/
def jsonSpanMatch (text : String) : Option String :=
  match text.data.findIdx? (fun c => c == '{'), lastIdxOfRBrace text.data with
  | some i, some j =>
    if i < j then some (String.mk ((text.data.drop i).take (j - i + 1))) else none
  | some _, none => none
  | none, _ => none

/-- ParsedResp models the object obtained from `JSON.parse` on the matched
span (or built by the parse-failure fallback). -/
structure ParsedResp where
  message : Option String
  stickerIds : Option (List String)
  reasoning : Option String
deriving DecidableEq, Repr

/-- pickIdx models `Math.floor(Math.random() * len)`: an arbitrary draw
(the `rand` parameter) reduced below `len`. -/
def pickIdx (rand len : Nat) : Nat := rand % len

/-- fallbackDefaultMsg is the canned message used when the raw model text
is empty in the parse-failure fallback. -/
def fallbackDefaultMsg : String :=
  "I\x27m here to help! Let me show you something cool:"

/-- fallbackResp transcribes the parse-failure fallback of the chat route:
a random sticker from the context when it is non-empty (`null` otherwise),
`text || default` as message, and the fixed reasoning string. -/
def fallbackResp (text : String) (ctx : List CtxSticker) (rand : Nat) : ParsedResp :=
  let randomSticker := if ctx.length > 0 then ctx[pickIdx rand ctx.length]? else none
  { message := some (jsOrString (some text) fallbackDefaultMsg)
    stickerIds := some (match randomSticker with
      | some s => [s.id]
      | none => [])
    reasoning := some "Using fallback due to parsing error" }

/-- validateAndLimit transcribes the validation step of the chat route:
keep only proposed ids present in the sticker context
(`stickerContext.some(s => s.id === id)`), then `slice(0, 1)`. -/
def validateAndLimit (ctx : List CtxSticker) (proposed : List String) : List String :=
  (proposed.filter (fun i => ctx.any (fun s => s.id == i))).take 1

/-- parseGeminiResponse transcribes the parse block of the chat route:
match the greedy brace regex against the raw text, `JSON.parse` the match,
and on a missing match or a parse throw fall back to `fallbackResp`. -/
def parseGeminiResponse (text : String) (jsonParse : String → Option ParsedResp)
    (ctx : List CtxSticker) (rand1 : Nat) : ParsedResp :=
  match jsonSpanMatch text with
  | some span =>
    match jsonParse span with
    | some p => p
    | none => fallbackResp text ctx rand1
  | none => fallbackResp text ctx rand1

/-- ensureOneSticker transcribes the validation fallback of the chat route:
when no valid sticker id survived and the context is non-empty, push one
random context sticker id. -/
def ensureOneSticker (ctx : List CtxSticker) (single : List String)
    (rand2 : Nat) : List String :=
  if single.length == 0 && ctx.length > 0 then
    match ctx[pickIdx rand2 ctx.length]? with
    | some s => single ++ [s.id]
    | none => single
  else single

/-- ChatMsg mirrors the `ChatMessage` interface of the chat route. -/
structure ChatMsg where
  role : String
  content : Option String
  stickerIds : Option (List String)
deriving DecidableEq, Repr

/-- ChatOkResp mirrors the success body (`ChatResponse`) of `POST /chat`. -/
structure ChatOkResp where
  message : Option String
  stickerIds : List String
  conversationHistory : List ChatMsg
deriving DecidableEq, Repr

/-- ChatOut is the outcome of `POST /chat`: a JSON success body or an
error response with its HTTP status. -/
inductive ChatOut where
  | ok (resp : ChatOkResp)
  | err (status : Nat) (errMsg : String)
deriving DecidableEq, Repr

/-- isHttpSuccess is true exactly on the success outcome of the chat
route. -/
def isHttpSuccess : ChatOut → Bool
  | .ok _ => true
  | .err _ _ => false

/-- GroupConfigIn models one stored configuration as consumed by the chat
route: `stickers` is `latestConfig.input.stickerGeneration?.stickers || []`
(a missing sticker section collapses to the empty list, exactly as the
`||` does). -/
structure GroupConfigIn where
  stickers : List StickerIn
deriving DecidableEq, Repr

/-- chatHandler transcribes the `POST /chat` handler of `setupChatRoutes`
from the session check to the response. External collaborators appear as
arguments: `group`/`configs` are the `getGroupWithConfigs` result,
`geminiText` is `response.candidates?.[0]?.content?.parts?.[0]?.text || ''`,
`jsonParse` is the `JSON.parse` builtin (`none` = throws), and
`rand1`/`rand2` are the draws of the two `Math.random()` call sites (the
parse-failure fallback and the validation fallback). -/
def chatHandler (userId : Option String) (message groupId : String)
    (conversationHistory : List ChatMsg)
    (group : Option Unit) (configs : List GroupConfigIn)
    (geminiText : String) (jsonParse : String → Option ParsedResp)
    (rand1 rand2 : Nat) : ChatOut :=
  if !(jsTruthy userId) then .err 400 "missing session cookie sticket-sid"
  else if message == "" || groupId == "" then
    .err 400 "message and groupId are required"
  else
    match group with
    | none => .err 404 "sticker group not found"
    | some _ =>
      match configs[0]? with
      | none => .err 404 "no sticker configuration found"
      | some latestConfig =>
        let stickers := latestConfig.stickers
        if stickers.length == 0 then .err 404 "no stickers found in this group"
        else
          let stickerContext := mkStickerContext stickers
          let parsedResponse := parseGeminiResponse geminiText jsonParse stickerContext rand1
          let singleStickerId := ensureOneSticker stickerContext
            (validateAndLimit stickerContext (parsedResponse.stickerIds.getD [])) rand2
          let newConversationHistory := conversationHistory ++
            [{ role := "user", content := some message, stickerIds := none },
             { role := "assistant", content := parsedResponse.message,
               stickerIds := some singleStickerId }]
          .ok { message := parsedResponse.message
                stickerIds := singleStickerId
                conversationHistory := newConversationHistory }

end StickIt

namespace StickIt

/-- charsStartWith decides whether the second character list is an initial
segment of the first. -/
def charsStartWith : List Char → List Char → Bool
  | _, [] => true
  | [], _ :: _ => false
  | a :: as, b :: bs => a == b && charsStartWith as bs

/-- charsContain decides whether the second character list occurs
contiguously inside the first. -/
def charsContain (hay needle : List Char) : Bool :=
  match hay with
  | [] => charsStartWith [] needle
  | _ :: rest => charsStartWith hay needle || charsContain rest needle

/-- strContains decides whether `needle` occurs contiguously inside
`hay`. -/
def strContains (hay needle : String) : Bool :=
  charsContain hay.data needle.data

/-- balancedScan walks the characters after an opening brace with the
current nesting depth and the span accumulated so far, and stops at the
closing brace that balances the first one. -/
def balancedScan : List Char → Nat → List Char → Option (List Char)
  | [], _, _ => none
  | c :: rest, depth, acc =>
    if c == '{' then balancedScan rest (depth + 1) (acc ++ [c])
    else if c == '}' then
      if depth == 1 then some (acc ++ [c])
      else if depth == 0 then none
      else balancedScan rest (depth - 1) (acc ++ [c])
    else balancedScan rest depth (acc ++ [c])

/-- Modelled from the spec: the Selection Engine extraction step the spec
describes — "locating the first \x7b...\x7d balanced-brace span" in the raw
text — which is not what the source's greedy regex does; defined here only
to be compared against `jsonSpanMatch`. -/
def specFirstBalancedSpan (text : String) : Option String :=
  let cs := text.data
  match cs.findIdx? (fun c => c == '{') with
  | some i => (balancedScan (cs.drop i) 0 []).map String.mk
  | none => none

end StickIt

namespace StickIt

lemma extractFirstImage_cons (p : RespPart) (rest : List RespPart) :
    extractFirstImage (p :: rest)
      = match partImageData p with
        | some d => some d
        | none => extractFirstImage rest := rfl

lemma filterMap_eq_map_of_some {α β : Type} (g : α → Option β) (f : α → β) :
    ∀ l : List α, (∀ a ∈ l, g a = some (f a)) → l.filterMap g = l.map f := by
  intro l h
  induction l with
  | nil => rfl
  | cons x xs ih =>
    rw [List.filterMap_cons, h x (List.mem_cons_self x xs), List.map_cons,
        ih (fun a ha => h a (List.mem_cons_of_mem x ha))]

lemma imageCount_nil : imageCount [] = 0 := rfl

lemma imageCount_cons_text (s : String) (l : List ContentPart) :
    imageCount (.text s :: l) = imageCount l := by
  simp [imageCount, List.filter]

lemma imageCount_cons_image (m d : String) (l : List ContentPart) :
    imageCount (.image m d :: l) = imageCount l + 1 := by
  simp [imageCount, List.filter]

lemma resolveAvatarPart_is_image (st : R2Store) (ga : GeneratedAvatarIn)
    (p : ContentPart) (h : resolveAvatarPart st ga = some p) :
    ∃ m d, p = .image m d := by
  unfold resolveAvatarPart at h
  split at h
  · split at h
    · exact absurd h (by simp)
    · split at h
      · exact ⟨_, _, (Option.some_injective _ h).symm⟩
      · exact absurd h (by simp)
  · exact absurd h (by simp)

lemma resolveRefPart_is_image (st : R2Store) (r : RefImageIn)
    (p : ContentPart) (h : resolveRefPart st r = some p) :
    ∃ m d, p = .image m d := by
  unfold resolveRefPart at h
  split at h
  · split at h
    · exact absurd h (by simp)
    · split at h
      · exact ⟨_, _, (Option.some_injective _ h).symm⟩
      · exact absurd h (by simp)
  · exact absurd h (by simp)

lemma imageCount_map_of_images {α : Type} (f : α → ContentPart) (l : List α)
    (h : ∀ r ∈ l, ∃ m d, f r = .image m d) :
    imageCount (l.map f) = l.length := by
  induction l with
  | nil => rfl
  | cons x xs ih =>
    obtain ⟨m, d, hx⟩ := h x (List.mem_cons_self x xs)
    rw [List.map_cons, hx, imageCount_cons_image,
        ih (fun r hr => h r (List.mem_cons_of_mem x hr))]
    simp

lemma buildStickerContents_contents (st : R2Store) (ac : AvatarCreationIn)
    (ga : GeneratedAvatarIn) (pa : ContentPart) (prompt0 : String)
    (hga : ac.generatedAvatar = some ga) (hurl : ga.url ≠ "")
    (hres : resolveAvatarPart st ga = some pa) :
    (buildStickerContents st ac prompt0).contents
      = ContentPart.text prompt0 :: pa :: ac.referenceImages.filterMap (resolveRefPart st) := by
  have hurl' : (ga.url != "") = true := by simpa using hurl
  by_cases h : ac.referenceImages.length > 0
  · simp [buildStickerContents, hga, hurl', hres, h]
  · have hnil : ac.referenceImages = [] := by
      cases hr : ac.referenceImages with
      | nil => rfl
      | cons a l => rw [hr] at h; exact absurd (by simp) h
    simp [buildStickerContents, hga, hurl', hres, hnil]

end StickIt

namespace StickIt

/-- Claim C9: for every pair of generation requests with identical fields,
the Prompt Composer produces byte-identical text — the composed prompt body
of both the sticker and the avatar route depends only on the request
fields, never on the handler-ambient clock or random number generator. -/
theorem prompt_composer_deterministic (env1 env2 : JsEnv) (sd : StickerDataIn)
    (bi : BrandIdentityIn) (ac : AvatarCreationIn) :
    composeStickerPrompt env1 sd bi ac = composeStickerPrompt env2 sd bi ac ∧
    composeAvatarPrompt env1 bi ac = composeAvatarPrompt env2 bi ac :=
  ⟨rfl, rfl⟩

/-- Claim C7: the post-call phase of a generation route performs exactly
one content-store write on a successful call and zero writes when
extraction fails, in which case the result is the 500 error response. -/
theorem persist_write_discipline (fn msg : String) (parts : List RespPart) :
    (persistExtracted fn parts msg).writes
      = (match extractFirstImage parts with
         | some d => [(fn, d)]
         | none => []) ∧
    (persistExtracted fn parts msg).writes.length
      = (if (extractFirstImage parts).isSome then 1 else 0) ∧
    resultIsErr (persistExtracted fn parts msg).result
      = (extractFirstImage parts).isNone := by
  cases h : extractFirstImage parts <;>
    simp [persistExtracted, h, resultIsErr]

/-- Claim C6: when the response parts contain an image part (preceded only
by non-image parts), the extraction yields exactly that first image part's
data, and the persistence phase writes exactly that one artifact, whatever
image parts follow. -/
theorem extract_first_inline_image_only (pre post : List RespPart)
    (p : RespPart) (d fn msg : String)
    (hpre : ∀ q ∈ pre, partImageData q = none)
    (hp : partImageData p = some d) :
    extractFirstImage (pre ++ p :: post) = some d ∧
    persistExtracted fn (pre ++ p :: post) msg
      = ⟨[(fn, d)], GenResult.ok fn d.length⟩ := by
  have h1 : ∀ l : List RespPart, (∀ q ∈ l, partImageData q = none) →
      extractFirstImage (l ++ p :: post) = some d := by
    intro l
    induction l with
    | nil => intro _; rw [List.nil_append, extractFirstImage_cons, hp]
    | cons q qs ih =>
      intro hl
      rw [List.cons_append, extractFirstImage_cons, hl q (List.mem_cons_self q qs)]
      exact ih (fun r hr => hl r (List.mem_cons_of_mem q hr))
  refine ⟨h1 pre hpre, ?_⟩
  unfold persistExtracted
  rw [h1 pre hpre]

/-- Witness for C6 at a response carrying two inline image parts behind a
text part: only the first image is extracted and persisted. -/
theorem extract_first_inline_image_only_witness :
    extractFirstImage ([⟨none⟩] ++ ⟨some "D1"⟩ :: [⟨some "D2"⟩]) = some "D1" ∧
    persistExtracted "f.png" ([⟨none⟩] ++ ⟨some "D1"⟩ :: [⟨some "D2"⟩]) "err"
      = ⟨[("f.png", "D1")], GenResult.ok "f.png" 2⟩ :=
  extract_first_inline_image_only [⟨none⟩] [⟨some "D2"⟩] ⟨some "D1"⟩ "D1"
    "f.png" "err" (by decide) (by decide)

/-- Claim C4: when the generated avatar is present (truthy URL) and
resolvable, the built content sequence is the text part followed by the
avatar part in image-slot 0, followed by the reference images in their
original list order (exactly those that resolve; all of them under the
full-resolvability hypothesis). -/
theorem sticker_avatar_first_image (st : R2Store) (ac : AvatarCreationIn)
    (ga : GeneratedAvatarIn) (pa : ContentPart) (prompt0 : String)
    (f : RefImageIn → ContentPart)
    (hga : ac.generatedAvatar = some ga) (hurl : ga.url ≠ "")
    (hres : resolveAvatarPart st ga = some pa)
    (hall : ∀ r ∈ ac.referenceImages, resolveRefPart st r = some (f r)) :
    (buildStickerContents st ac prompt0).contents
      = ContentPart.text prompt0 :: pa
          :: ac.referenceImages.filterMap (resolveRefPart st) ∧
    (buildStickerContents st ac prompt0).contents
      = ContentPart.text prompt0 :: pa :: ac.referenceImages.map f := by
  have h1 := buildStickerContents_contents st ac ga pa prompt0 hga hurl hres
  exact ⟨h1, by rw [h1, filterMap_eq_map_of_some _ f _ hall]⟩

/-- c5wStore is a store resolving one avatar object and one reference
object, for the witnesses of C4 and C5. -/
def c5wStore : R2Store := [("av.png", ⟨"A", none⟩), ("r1", ⟨"1", none⟩)]

/-- c5wAvatar carries a resolvable generated avatar and one resolvable
reference image. -/
def c5wAvatar : AvatarCreationIn :=
  ⟨none, none, none, some ⟨"https://h/a?filename=av.png", some "av.png"⟩,
   [⟨some "r1"⟩]⟩

/-- Witness for C4 at a request with a resolvable avatar and one
resolvable reference image. -/
theorem sticker_avatar_first_image_witness :
    (buildStickerContents c5wStore c5wAvatar "p").contents
      = ContentPart.text "p" :: ContentPart.image "image/png" "A"
          :: c5wAvatar.referenceImages.filterMap (resolveRefPart c5wStore) ∧
    (buildStickerContents c5wStore c5wAvatar "p").contents
      = ContentPart.text "p" :: ContentPart.image "image/png" "A"
          :: c5wAvatar.referenceImages.map (fun _ => ContentPart.image "image/jpeg" "1") :=
  sticker_avatar_first_image c5wStore c5wAvatar
    ⟨"https://h/a?filename=av.png", some "av.png"⟩ (.image "image/png" "A") "p"
    (fun _ => .image "image/jpeg" "1") rfl (by decide) rfl (by decide)

/-- c5Store resolves an avatar object and four reference objects. -/
def c5Store : R2Store :=
  [("av.png", ⟨"A", none⟩), ("r1", ⟨"1", none⟩), ("r2", ⟨"2", none⟩),
   ("r3", ⟨"3", none⟩), ("r4", ⟨"4", none⟩)]

/-- c5Avatar carries a resolvable generated avatar and four resolvable
reference images. -/
def c5Avatar : AvatarCreationIn :=
  ⟨none, none, none, some ⟨"https://h/a?filename=av.png", some "av.png"⟩,
   [⟨some "r1"⟩, ⟨some "r2"⟩, ⟨some "r3"⟩, ⟨some "r4"⟩]⟩

/-- Counterexample to C5: with a resolvable avatar and four resolvable
reference images the builder attaches five image parts, while the claim's
formula `1 + min(len, 3)` predicts four — no truncation to three exists in
the code. -/
theorem sticker_image_count_counterexample :
    imageCount (buildStickerContents c5Store c5Avatar "prompt").contents = 5 ∧
    1 + min c5Avatar.referenceImages.length 3 = 4 := by
  exact ⟨by decide, by decide⟩

/-- Claim C5 (amended): when the generated avatar is present and
resolvable and every reference image resolves, the number of image parts
attached to the outgoing request is `1 + len(referenceImages)` — the
builder applies no cap at three. -/
theorem sticker_image_count_no_cap (st : R2Store) (ac : AvatarCreationIn)
    (ga : GeneratedAvatarIn) (pa : ContentPart) (prompt0 : String)
    (f : RefImageIn → ContentPart)
    (hga : ac.generatedAvatar = some ga) (hurl : ga.url ≠ "")
    (hres : resolveAvatarPart st ga = some pa)
    (hall : ∀ r ∈ ac.referenceImages, resolveRefPart st r = some (f r)) :
    imageCount (buildStickerContents st ac prompt0).contents
      = 1 + ac.referenceImages.length := by
  rw [buildStickerContents_contents st ac ga pa prompt0 hga hurl hres,
      imageCount_cons_text]
  obtain ⟨m, d, hpa⟩ := resolveAvatarPart_is_image st ga pa hres
  rw [hpa, imageCount_cons_image, filterMap_eq_map_of_some _ f _ hall,
      imageCount_map_of_images f _
        (fun r hr => resolveRefPart_is_image st r (f r) (hall r hr))]
  omega

/-- Witness for the amended C5 at a request with one reference image. -/
theorem sticker_image_count_no_cap_witness :
    imageCount (buildStickerContents c5wStore c5wAvatar "p").contents
      = 1 + c5wAvatar.referenceImages.length :=
  sticker_image_count_no_cap c5wStore c5wAvatar
    ⟨"https://h/a?filename=av.png", some "av.png"⟩ (.image "image/png" "A") "p"
    (fun _ => .image "image/jpeg" "1") rfl (by decide) rfl (by decide)

/-- emptyCatalogConfig is a stored configuration whose sticker list is
empty. -/
def emptyCatalogConfig : GroupConfigIn := ⟨[]⟩

/-- Counterexample to C1: a chat request whose collection resolves but
holds zero stickers does not get an HTTP success response — the handler
answers 404 "no stickers found in this group". -/
theorem chat_empty_catalog_counterexample :
    isHttpSuccess (chatHandler (some "u") "hello" "g1" [] (some ())
      [emptyCatalogConfig] "any text" (fun _ => none) 0 0) = false ∧
    chatHandler (some "u") "hello" "g1" [] (some ())
      [emptyCatalogConfig] "any text" (fun _ => none) 0 0
      = ChatOut.err 404 "no stickers found in this group" :=
  ⟨rfl, rfl⟩

/-- Claim C1 (amended): a chat request that passes the session and field
guards and whose resolved catalog is empty is rejected with a 404 error
("no stickers found in this group"); the empty catalog never reaches a
success path. -/
theorem chat_empty_catalog_is_404 (userId : Option String)
    (message groupId : String) (hist : List ChatMsg)
    (configs : List GroupConfigIn) (cfg : GroupConfigIn)
    (text : String) (jp : String → Option ParsedResp) (r1 r2 : Nat)
    (hu : jsTruthy userId = true) (hm : message ≠ "") (hg : groupId ≠ "")
    (hc : configs[0]? = some cfg) (hs : cfg.stickers = []) :
    chatHandler userId message groupId hist (some ()) configs text jp r1 r2
      = ChatOut.err 404 "no stickers found in this group" := by
  unfold chatHandler
  simp [hu, hm, hg, hc, hs]

/-- Witness for the amended C1 at a concrete empty-catalog request. -/
theorem chat_empty_catalog_is_404_witness :
    chatHandler (some "u") "hi" "g" [] (some ()) [emptyCatalogConfig] "t"
      (fun _ => none) 0 0
      = ChatOut.err 404 "no stickers found in this group" :=
  chat_empty_catalog_is_404 (some "u") "hi" "g" [] [emptyCatalogConfig]
    emptyCatalogConfig "t" (fun _ => none) 0 0 rfl (by decide) (by decide)
    rfl rfl

end StickIt

namespace StickIt

/-- c2Sticker is the sticker data of the C2 failing input. -/
def c2Sticker : StickerDataIn := ⟨"Goodnight", "saying goodnight", none, none⟩

/-- c2Brand is the brand identity of the C2 failing input. -/
def c2Brand : BrandIdentityIn := ⟨none, none, none⟩

/-- c2Avatar carries a resolvable generated avatar and one resolvable
reference image, so that the precedence clause is due. -/
def c2Avatar : AvatarCreationIn :=
  ⟨none, none, none,
   some ⟨"https://h/get-avatar-image?filename=av.png", some "av.png"⟩,
   [⟨some "r1.jpg"⟩]⟩

/-- c2Store resolves both image locators of `c2Avatar`. -/
def c2Store : R2Store :=
  [("av.png", ⟨"AV", some "image/png"⟩), ("r1.jpg", ⟨"R1", none⟩)]

/-- c2Prompt is the composed sticker prompt of the C2 failing input. -/
def c2Prompt : String := composeStickerPrompt ⟨0, 0⟩ c2Sticker c2Brand c2Avatar

/-- c2Built is the built model request of the C2 failing input. -/
def c2Built : BuiltRequest := buildStickerContents c2Store c2Avatar c2Prompt

set_option maxRecDepth 400000 in
/-- Claim C2 (code bug): at a sticker request with an attached avatar and
reference image, the text part submitted to the model is the pre-append
prompt and does not contain the precedence clause; the clause lands only
in the handler-local variable (`finalPrompt`), which the source appends to
after `contents[0]` has already captured the original string. -/
theorem sticker_precedence_clause_not_submitted :
    imageCount c2Built.contents = 2 ∧
    c2Built.contents.head? = some (ContentPart.text c2Prompt) ∧
    strContains c2Prompt stickerCriticalClause = false ∧
    c2Built.finalPrompt = c2Prompt ++ stickerCriticalClause ∧
    strContains c2Built.finalPrompt stickerCriticalClause = true := by
  exact ⟨by decide, rfl, by decide, rfl, by decide⟩

/-- c3Text is a raw model answer with commentary before the object and a
stray closing brace in the commentary after it. -/
def c3Text : String := "Sure! \x7b\"message\": \"hi\"\x7d hope it helps\x7d"

/-- c3TextClean is the same answer without the stray trailing brace. -/
def c3TextClean : String := "Sure! \x7b\"message\": \"hi\"\x7d hope it helps"

/-- Counterexample to C3: the source regex is greedy, so the stray closing
brace in the trailing commentary extends the extracted span past the first
balanced one — trailing commentary does affect what is parsed. -/
theorem jsonSpanMatch_not_balanced_counterexample :
    jsonSpanMatch c3Text = some "\x7b\"message\": \"hi\"\x7d hope it helps\x7d" ∧
    specFirstBalancedSpan c3Text = some "\x7b\"message\": \"hi\"\x7d" ∧
    jsonSpanMatch c3Text ≠ specFirstBalancedSpan c3Text ∧
    jsonSpanMatch c3TextClean = some "\x7b\"message\": \"hi\"\x7d" := by
  exact ⟨by decide, by decide, by decide, by decide⟩

end StickIt

namespace StickIt

lemma findIdx?_lbrace_append (A T : List Char) (hA : ∀ c ∈ A, c ≠ '{') :
    (A ++ '{' :: T).findIdx? (fun c => c == '{') = some A.length := by
  have h0 : A.findIdx? (fun c => c == '{') = none :=
    List.findIdx?_eq_none_iff.mpr (fun x hx => beq_eq_false_iff_ne.mpr (hA x hx))
  rw [List.findIdx?_append, h0, List.findIdx?_cons]
  simp

lemma lastIdxOfRBrace_append (A M P : List Char) (hP : ∀ c ∈ P, c ≠ '}') :
    lastIdxOfRBrace (A ++ '{' :: (M ++ '}' :: P)) = some (A.length + M.length + 1) := by
  have h0 : P.reverse.findIdx? (fun c => c == '}') = none :=
    List.findIdx?_eq_none_iff.mpr (fun x hx =>
      beq_eq_false_iff_ne.mpr (hP x (List.mem_reverse.mp hx)))
  have hrev : (A ++ '{' :: (M ++ '}' :: P)).reverse
      = P.reverse ++ '}' :: (M.reverse ++ '{' :: A.reverse) := by
    simp [List.reverse_append]
  have hfind : (A ++ '{' :: (M ++ '}' :: P)).reverse.findIdx? (fun c => c == '}')
      = some P.length := by
    rw [hrev, List.findIdx?_append, h0, List.findIdx?_cons]
    simp
  unfold lastIdxOfRBrace
  rw [hfind]
  simp [List.length_append]
  omega

/-- Claim C3 (amended): the extraction takes the span running from the
first opening brace to the last closing brace of the whole text (the
regex is greedy), and hands exactly that span to `JSON.parse`: leading
commentary (brace-free) and trailing commentary without a closing brace
are excluded, but any closing brace in trailing commentary would extend
the span (see the counterexample). -/
theorem jsonSpanMatch_greedy_span (pre mid post : String)
    (hpre : ∀ c ∈ pre.data, c ≠ '{')
    (hpost : ∀ c ∈ post.data, c ≠ '}') :
    jsonSpanMatch (pre ++ "\x7b" ++ mid ++ "\x7d" ++ post)
      = some ("\x7b" ++ mid ++ "\x7d") ∧
    ∀ (jp : String → Option ParsedResp) (ctx : List CtxSticker) (r1 : Nat),
      parseGeminiResponse (pre ++ "\x7b" ++ mid ++ "\x7d" ++ post) jp ctx r1
        = match jp ("\x7b" ++ mid ++ "\x7d") with
          | some p => p
          | none => fallbackResp (pre ++ "\x7b" ++ mid ++ "\x7d" ++ post) ctx r1 := by
  have hd : (pre ++ "\x7b" ++ mid ++ "\x7d" ++ post).data
      = pre.data ++ '{' :: (mid.data ++ '}' :: post.data) := by
    simp [String.data_append]
  have h1 : jsonSpanMatch (pre ++ "\x7b" ++ mid ++ "\x7d" ++ post)
      = some ("\x7b" ++ mid ++ "\x7d") := by
    unfold jsonSpanMatch
    rw [hd, findIdx?_lbrace_append _ _ hpre, lastIdxOfRBrace_append _ _ _ hpost]
    show (if pre.data.length < pre.data.length + mid.data.length + 1 then
        some (String.mk
          (((pre.data ++ '{' :: (mid.data ++ '}' :: post.data)).drop pre.data.length).take
            (pre.data.length + mid.data.length + 1 - pre.data.length + 1)))
      else none) = some ("\x7b" ++ mid ++ "\x7d")
    rw [if_pos (by omega)]
    have hidx : pre.data.length + mid.data.length + 1 - pre.data.length + 1
        = mid.data.length + 1 + 1 := by omega
    rw [hidx, List.drop_left, List.take_succ_cons]
    have htake : (mid.data ++ '}' :: post.data).take (mid.data.length + 1)
        = mid.data ++ ['}'] := by
      rw [List.take_append, List.take_succ_cons, List.take_zero]
    rw [htake]
    exact congrArg some (String.ext (by simp [String.data_append]))
  refine ⟨h1, fun jp ctx r1 => ?_⟩
  unfold parseGeminiResponse
  rw [h1]

/-- Witness for the amended C3 on a concrete decomposition with commentary
on both sides. -/
theorem jsonSpanMatch_greedy_span_witness :
    jsonSpanMatch ("Sure! " ++ "\x7b" ++ "\"a\": 1" ++ "\x7d" ++ " done.")
      = some ("\x7b" ++ "\"a\": 1" ++ "\x7d") ∧
    ∀ (jp : String → Option ParsedResp) (ctx : List CtxSticker) (r1 : Nat),
      parseGeminiResponse ("Sure! " ++ "\x7b" ++ "\"a\": 1" ++ "\x7d" ++ " done.") jp ctx r1
        = match jp ("\x7b" ++ "\"a\": 1" ++ "\x7d") with
          | some p => p
          | none => fallbackResp ("Sure! " ++ "\x7b" ++ "\"a\": 1" ++ "\x7d" ++ " done.") ctx r1 :=
  jsonSpanMatch_greedy_span "Sure! " "\"a\": 1" " done." (by decide) (by decide)

end StickIt

namespace StickIt

lemma validateAndLimit_length_le (ctx : List CtxSticker) (proposed : List String) :
    (validateAndLimit ctx proposed).length ≤ 1 := by
  unfold validateAndLimit
  rw [List.length_take]
  exact min_le_left _ _

lemma validateAndLimit_mem (ctx : List CtxSticker) (proposed : List String)
    (i : String) (hi : i ∈ validateAndLimit ctx proposed) :
    ctx.any (fun s => s.id == i) = true := by
  unfold validateAndLimit at hi
  exact (List.mem_filter.mp (List.mem_of_mem_take hi)).2

lemma length_mkStickerContext (s : List StickerIn) :
    (mkStickerContext s).length = s.length := by
  unfold mkStickerContext
  exact List.length_mapIdx

lemma ensureOneSticker_spec (ctx : List CtxSticker) (proposed : List String)
    (r2 : Nat) (hctx : ctx ≠ []) :
    (ensureOneSticker ctx (validateAndLimit ctx proposed) r2).length = 1 ∧
    ∀ i ∈ ensureOneSticker ctx (validateAndLimit ctx proposed) r2,
      ctx.any (fun s => s.id == i) = true := by
  have hlen : 0 < ctx.length := List.length_pos.mpr hctx
  unfold ensureOneSticker
  by_cases hv : validateAndLimit ctx proposed = []
  · rw [hv]
    have hcond : (([] : List String).length == 0 && decide (ctx.length > 0)) = true := by
      simp [hlen]
    rw [if_pos hcond]
    have hidx : pickIdx r2 ctx.length < ctx.length := Nat.mod_lt _ hlen
    rw [List.getElem?_eq_getElem hidx]
    refine ⟨rfl, fun i hi => ?_⟩
    simp only [List.nil_append, List.mem_singleton] at hi
    subst hi
    exact List.any_eq_true.mpr ⟨ctx[pickIdx r2 ctx.length], List.getElem_mem hidx, by simp⟩
  · have hle := validateAndLimit_length_le ctx proposed
    have hpos : 0 < (validateAndLimit ctx proposed).length := List.length_pos.mpr hv
    have hone : (validateAndLimit ctx proposed).length = 1 := by omega
    have hcond : ((validateAndLimit ctx proposed).length == 0
        && decide (ctx.length > 0)) = false := by
      simp [hone]
    rw [if_neg (by simp [hcond])]
    exact ⟨hone, fun i hi => validateAndLimit_mem ctx proposed i hi⟩

/-- Claim C10: every chat request that gets an HTTP success response
carries exactly one sticker id (never zero), and that id is one of the ids
of the sticker catalog built from the group's latest configuration. -/
theorem chat_success_exactly_one_catalog_id (userId : Option String)
    (message groupId : String) (hist : List ChatMsg) (group : Option Unit)
    (configs : List GroupConfigIn) (text : String)
    (jp : String → Option ParsedResp) (r1 r2 : Nat) (resp : ChatOkResp)
    (h : chatHandler userId message groupId hist group configs text jp r1 r2
          = ChatOut.ok resp) :
    resp.stickerIds.length = 1 ∧
    ∃ cfg, configs[0]? = some cfg ∧
      ∀ i ∈ resp.stickerIds,
        (mkStickerContext cfg.stickers).any (fun s => s.id == i) = true := by
  unfold chatHandler at h
  split at h
  · exact absurd h (by simp)
  · split at h
    · exact absurd h (by simp)
    · split at h
      · exact absurd h (by simp)
      · split at h
        · exact absurd h (by simp)
        · next latestConfig hc =>
          simp only [] at h
          split at h
          · exact absurd h (by simp)
          · next hguard =>
            have hs0 : latestConfig.stickers.length ≠ 0 := by
              simpa using hguard
            have hctx : mkStickerContext latestConfig.stickers ≠ [] := by
              intro he
              have := length_mkStickerContext latestConfig.stickers
              rw [he] at this
              exact hs0 this.symm
            obtain ⟨hl, hm⟩ := ensureOneSticker_spec
              (mkStickerContext latestConfig.stickers)
              ((parseGeminiResponse text jp (mkStickerContext latestConfig.stickers) r1).stickerIds.getD [])
              r2 hctx
            simp only [ChatOut.ok.injEq] at h
            refine ⟨?_, latestConfig, hc, ?_⟩
            · rw [← h]
              exact hl
            · intro i hi
              rw [← h] at hi
              exact hm i hi


/-- c10Sticker is a catalog entry with id "s1". -/
def c10Sticker : StickerIn := ⟨some "s1", "n", "sc", none, none, none, none⟩

/-- c10Resp is the success body the chat handler computes for the C10
witness request. -/
def c10Resp : ChatOkResp :=
  { message := some "m", stickerIds := ["s1"],
    conversationHistory :=
      [⟨"user", some "hi", none⟩, ⟨"assistant", some "m", some ["s1"]⟩] }

/-- Witness for C10 at a concrete successful chat request. -/
theorem chat_success_exactly_one_catalog_id_witness :
    c10Resp.stickerIds.length = 1 ∧
    ∃ cfg, ([⟨[c10Sticker]⟩] : List GroupConfigIn)[0]? = some cfg ∧
      ∀ i ∈ c10Resp.stickerIds,
        (mkStickerContext cfg.stickers).any (fun s => s.id == i) = true :=
  chat_success_exactly_one_catalog_id (some "u") "hi" "g" [] (some ())
    [⟨[c10Sticker]⟩] "\x7b\x7d" (fun _ => some ⟨some "m", some ["s1"], none⟩)
    0 0 c10Resp (by decide)

/-- Claim C8: the engine keeps only proposed ids present in the catalog
and truncates to at most one (the first valid match): the validation step
never yields more than one id, and when the model proposes two valid
catalog ids the success response and the appended assistant turn carry
exactly the first. -/
theorem validate_single_sticker_first (userId : Option String)
    (message groupId : String) (hist : List ChatMsg)
    (configs : List GroupConfigIn) (cfg : GroupConfigIn)
    (text span : String) (jp : String → Option ParsedResp) (p : ParsedResp)
    (a b : String) (rest : List String) (r1 r2 : Nat)
    (hu : jsTruthy userId = true) (hm : message ≠ "") (hg : groupId ≠ "")
    (hc : configs[0]? = some cfg) (hs : cfg.stickers.length ≠ 0)
    (hspan : jsonSpanMatch text = some span) (hjp : jp span = some p)
    (hids : p.stickerIds = some (a :: b :: rest))
    (ha : (mkStickerContext cfg.stickers).any (fun s => s.id == a) = true)
    (hb : (mkStickerContext cfg.stickers).any (fun s => s.id == b) = true) :
    (∀ proposed : List String,
      (validateAndLimit (mkStickerContext cfg.stickers) proposed).length ≤ 1) ∧
    chatHandler userId message groupId hist (some ()) configs text jp r1 r2
      = ChatOut.ok
          { message := p.message
            stickerIds := [a]
            conversationHistory := hist ++
              [⟨"user", some message, none⟩, ⟨"assistant", p.message, some [a]⟩] } := by
  refine ⟨fun proposed => validateAndLimit_length_le _ proposed, ?_⟩
  have hm' : (message == "") = false := beq_eq_false_iff_ne.mpr hm
  have hg' : (groupId == "") = false := beq_eq_false_iff_ne.mpr hg
  have hs' : (cfg.stickers.length == 0) = false := by simpa using hs
  have hval : validateAndLimit (mkStickerContext cfg.stickers)
      (p.stickerIds.getD []) = [a] := by
    unfold validateAndLimit
    rw [hids, Option.getD_some]
    simp only [List.filter_cons, ha, hb, if_true, List.take_succ_cons,
      List.take_zero]
  have hone : ensureOneSticker (mkStickerContext cfg.stickers)
      (validateAndLimit (mkStickerContext cfg.stickers) (p.stickerIds.getD [])) r2
      = [a] := by
    rw [hval]
    unfold ensureOneSticker
    simp
  unfold chatHandler parseGeminiResponse
  simp only [hu, hm', hg', hc, hspan, hjp, hs', Bool.not_true, Bool.or_self,
    Bool.false_or, Bool.or_false, if_false, if_true, ite_false, ite_true,
    Bool.false_eq_true, hone]

/-- c8Cfg is a configuration with a two-sticker catalog (ids "s1", "s2"). -/
def c8Cfg : GroupConfigIn :=
  ⟨[⟨some "s1", "n1", "sc1", none, none, none, none⟩,
    ⟨some "s2", "n2", "sc2", none, none, none, none⟩]⟩

/-- c8Parsed is a parsed model answer proposing two valid catalog ids. -/
def c8Parsed : ParsedResp := ⟨some "m", some ["s1", "s2"], none⟩

/-- Witness for C8 at a model answer proposing the two valid ids "s1" and
"s2": the response carries exactly ["s1"]. -/
theorem validate_single_sticker_first_witness :
    (∀ proposed : List String,
      (validateAndLimit (mkStickerContext c8Cfg.stickers) proposed).length ≤ 1) ∧
    chatHandler (some "u") "hi" "g" [] (some ()) [c8Cfg] "\x7b\x7d"
      (fun _ => some c8Parsed) 0 0
      = ChatOut.ok
          { message := c8Parsed.message
            stickerIds := ["s1"]
            conversationHistory := [] ++
              [⟨"user", some "hi", none⟩,
               ⟨"assistant", c8Parsed.message, some ["s1"]⟩] } :=
  validate_single_sticker_first (some "u") "hi" "g" [] [c8Cfg] c8Cfg
    "\x7b\x7d" "\x7b\x7d" (fun _ => some c8Parsed) c8Parsed "s1" "s2" [] 0 0
    rfl (by decide) (by decide) rfl (by decide) (by decide) rfl rfl
    (by decide) (by decide)

end StickIt
